import Mathlib

/-!
Verification development for the tno task-supervision agent
(crates tno-model, tno-core, tno-exec, tno-api).

Rust source is shallowly embedded: value types become Lean structures and
inductives, pure functions become Lean functions, fallible functions return
`Option`/`Except`, and the child-side pre-exec hooks are modelled as functions
of the outcomes of the underlying system calls.  Machine integers (`u64`,
`i32`) are modelled as `Nat`/`Int`; the `f64` backoff factor is modelled as
`ℚ` (exact arithmetic; no rounding is relevant to the stated laws).
-/

namespace Tno

/-! ### tno-model: domain value types -/

/-- `KeyValue` from tno-model/src/domain/kv.rs: a key-value pair of plain
UTF-8 strings with no validation. -/
structure KeyValue where
  key : String
  value : String
deriving DecidableEq, Repr

/-- `Env` from tno-model/src/domain/env.rs: `pub struct Env(pub Vec<KeyValue>)`,
an ordered sequence of key-value pairs. -/
structure Env where
  pairs : List KeyValue
deriving DecidableEq, Repr

/-- `Env::new`. -/
def Env.new : Env := ⟨[]⟩

/-- `Env::get`: `self.0.iter().rev().find(|kv| kv.key() == key).map(|kv| kv.value())`. -/
def Env.get (e : Env) (k : String) : Option String :=
  (e.pairs.reverse.find? (fun kv => kv.key == k)).map KeyValue.value

/-- `Env::push`: `self.0.push(KeyValue::new(key, value))`. -/
def Env.push (e : Env) (k v : String) : Env :=
  ⟨e.pairs ++ [KeyValue.mk k v]⟩

/-- `Env::merged`: clone of `self.0` extended with a clone of `other.0`
(plain concatenation). -/
def Env.merged (a b : Env) : Env :=
  ⟨a.pairs ++ b.pairs⟩

/-- Spec-side reading of `Env::get` ("the value of the last pushed pair whose
key is k"): scan the pairs in order, remembering the most recent match.
Used only to compare against the translated `Env.get`. -/
def lastPushedValue : List KeyValue → String → Option String
  | [], _ => Option.none
  | kv :: rest, k =>
    match lastPushedValue rest k with
    | some v => some v
    | Option.none => if kv.key == k then some kv.value else Option.none

/-- `Flag` from tno-model/src/domain/flag.rs: a transparent boolean wrapper. -/
structure Flag where
  val : Bool
deriving DecidableEq, Repr

/-- `Flag::enabled()`. -/
def Flag.enabled : Flag := ⟨true⟩

/-- `Flag::disabled()`. -/
def Flag.disabled : Flag := ⟨false⟩

/-- `Flag::is_enabled()`. -/
def Flag.is_enabled (f : Flag) : Bool := f.val

/-- `Labels` from tno-model/src/domain/labels.rs: a `BTreeMap<String,String>`,
modelled as an association list whose `insert` overwrites any existing
binding, so `get` agrees with the map semantics. -/
structure Labels where
  entries : List (String × String)
deriving DecidableEq, Repr

/-- `Labels::new()`. -/
def Labels.new : Labels := ⟨[]⟩

/-- `Labels::get`: map lookup. -/
def Labels.get (l : Labels) (k : String) : Option String :=
  (l.entries.find? (fun e => e.1 == k)).map Prod.snd

/-- `Labels::insert`: insert or overwrite a binding. -/
def Labels.insert (l : Labels) (k v : String) : Labels :=
  ⟨(k, v) :: l.entries.filter (fun e => ¬ (e.1 == k))⟩

/-- `LABEL_RUNNER_TAG` from tno-model/src/domain/constants.rs. -/
def LABEL_RUNNER_TAG : String := "runner-tag"

/-- `JitterStrategy` from tno-model/src/strategy/jitter.rs. -/
inductive JitterStrategy where
  | none
  | full
  | equal
  | decorrelated
deriving DecidableEq, Repr

/-- `BackoffStrategy` from tno-model/src/strategy/backoff.rs.
`first_ms`, `max_ms` are `u64`; `factor` is `f64`, modelled as `ℚ`. -/
structure BackoffStrategy where
  jitter : JitterStrategy
  first_ms : Nat
  max_ms : Nat
  factor : ℚ
deriving DecidableEq, Repr

/-- `RestartStrategy` from tno-model/src/strategy/restart.rs. -/
inductive RestartStrategy where
  | never
  | onFailure
  | always (interval_ms : Option Nat)
deriving DecidableEq, Repr

/-- `AdmissionStrategy` from tno-model/src/strategy/admission.rs. -/
inductive AdmissionStrategy where
  | dropIfRunning
  | replace
  | queue
deriving DecidableEq, Repr

/-- `TaskKind` from tno-model/src/kind/task.rs. `cwd`/`module` paths are
modelled as strings. -/
inductive TaskKind where
  | subprocess (command : String) (args : List String) (env : Env)
      (cwd : Option String) (fail_on_non_zero : Flag)
  | wasm (module : String) (args : List String) (env : Env)
  | container (image : String) (command : Option (List String))
      (args : List String) (env : Env)
  | noneKind
deriving DecidableEq, Repr

/-- `TaskKind::kind()`: the short symbolic identifier of the runtime kind. -/
def TaskKind.kind : TaskKind → String
  | .noneKind => "none"
  | .wasm _ _ _ => "wasm"
  | .container _ _ _ _ => "container"
  | .subprocess _ _ _ _ _ => "subprocess"

/-- `CreateSpec` from tno-model/src/spec/create.rs. -/
structure CreateSpec where
  slot : String
  kind : TaskKind
  timeout_ms : Nat
  restart : RestartStrategy
  backoff : BackoffStrategy
  admission : AdmissionStrategy
  labels : Labels
deriving DecidableEq, Repr

/-- `CreateSpec::runner_tag`: thin wrapper over `labels.get(LABEL_RUNNER_TAG)`. -/
def CreateSpec.runner_tag (s : CreateSpec) : Option String :=
  s.labels.get LABEL_RUNNER_TAG

/-! ### Supporting lemmas for Env -/

theorem find?_append {α : Type} (l₁ l₂ : List α) (p : α → Bool) :
    (l₁ ++ l₂).find? p =
      (match l₁.find? p with
       | some x => some x
       | Option.none => l₂.find? p) := by
  induction l₁ with
  | nil => simp
  | cons x xs ih =>
    by_cases h : p x <;> simp [List.find?, h, ih]

theorem env_get_cons (kv : KeyValue) (rest : List KeyValue) (k : String) :
    Env.get ⟨kv :: rest⟩ k =
      (match Env.get ⟨rest⟩ k with
       | some v => some v
       | Option.none => if kv.key == k then some kv.value else Option.none) := by
  simp only [Env.get, List.reverse_cons, find?_append]
  cases h : (rest.reverse.find? fun kv => kv.key == k) with
  | none =>
    by_cases hk : kv.key == k <;> simp [List.find?, hk]
  | some x => simp

theorem env_get_eq_lastPushed (pairs : List KeyValue) (k : String) :
    Env.get ⟨pairs⟩ k = lastPushedValue pairs k := by
  induction pairs with
  | nil => simp [Env.get, lastPushedValue]
  | cons kv rest ih =>
    rw [env_get_cons, ih]
    rfl

/-- C7 — Env semantics: `get` returns the value of the last pushed pair with
the given key (or `none`); `merged` is concatenation; and lookup in a merged
environment prefers `b` and falls back to `a`. -/
theorem env_get_merged_semantics (a b e : Env) (k : String) :
    e.get k = lastPushedValue e.pairs k
    ∧ (a.merged b).pairs = a.pairs ++ b.pairs
    ∧ (a.merged b).get k =
        (match b.get k with
         | some v => some v
         | Option.none => a.get k) := by
  refine ⟨?_, rfl, ?_⟩
  · cases e with
    | mk pairs => exact env_get_eq_lastPushed pairs k
  · show Env.get ⟨a.pairs ++ b.pairs⟩ k = _
    simp only [Env.get, List.reverse_append, find?_append]
    cases h : (b.pairs.reverse.find? fun kv => kv.key == k) <;> simp

/-! ### tno-core: runner abstraction and router -/

/-- `TaskRef` (taskvisor): an opaque execution unit carrying a stable task
name; the body is irrelevant to the routing claims. -/
structure TaskRef where
  taskName : String
deriving DecidableEq, Repr

/-- `RunnerError` from tno-core/src/runner/error.rs (the variants used by the
subprocess runner). -/
inductive RunnerError where
  | unsupportedKind (runner : String) (kind : String)
  | invalidSpec (msg : String)
deriving DecidableEq, Repr

/-- `CoreError` from tno-core/src/error.rs (the variants reachable from
`RunnerRouter::build`). -/
inductive CoreError where
  | noRunner (msg : String)
  | runner (e : RunnerError)
deriving DecidableEq, Repr

/-- `BuildContext` from tno-core/src/runner/context.rs: shared env (the
metrics handle plays no role in the routing claims). -/
structure BuildContext where
  env : Env

/-- The `Runner` trait object: name, `supports`, `build_task`. -/
structure Runner where
  name : String
  supports : CreateSpec → Bool
  build_task : CreateSpec → BuildContext → Except RunnerError TaskRef

/-- `RunnerEntry` from tno-core/src/router/mod.rs. -/
structure RunnerEntry where
  runner : Runner
  labels : Labels

/-- `RunnerRouter` from tno-core/src/router/mod.rs. -/
structure RunnerRouter where
  runners : List RunnerEntry
  ctx : BuildContext

/-- The second filter of `RunnerRouter::pick`: the label-constraint closure. -/
def tag_filter (wanted : Option String) (entry : RunnerEntry) : Bool :=
  match wanted with
  | some w =>
    match entry.labels.get LABEL_RUNNER_TAG with
    | some actual => actual == w
    | Option.none => false
  | Option.none => true

/-- `RunnerRouter::pick`: filter by `supports`, then by the label constraint,
and return the first survivor's runner. -/
def RunnerRouter.pick (router : RunnerRouter) (spec : CreateSpec) : Option Runner :=
  (((router.runners.filter (fun e => e.runner.supports spec)).filter
      (tag_filter spec.runner_tag)).map RunnerEntry.runner).head?

/-- `RunnerRouter::build`: reject `TaskKind::None`, otherwise pick a runner
and delegate to its `build_task`, wrapping runner errors into `CoreError`. -/
def RunnerRouter.build (router : RunnerRouter) (spec : CreateSpec) :
    Except CoreError TaskRef :=
  match spec.kind with
  | TaskKind.noneKind =>
    Except.error (CoreError.noRunner "TaskKind::None requires submit_with_task()")
  | _ =>
    match router.pick spec with
    | Option.none => Except.error (CoreError.noRunner spec.kind.kind)
    | some r => (r.build_task spec router.ctx).mapError CoreError.runner

/-- Conjunction of the two `pick` filters, for stating "passes both". -/
def route_passes (spec : CreateSpec) (e : RunnerEntry) : Bool :=
  e.runner.supports spec && tag_filter spec.runner_tag e

theorem filter_filter_passes (l : List RunnerEntry) (spec : CreateSpec) :
    (l.filter (fun e => e.runner.supports spec)).filter (tag_filter spec.runner_tag)
      = l.filter (route_passes spec) := by
  induction l with
  | nil => rfl
  | cons a as ih =>
    cases h1 : a.runner.supports spec <;> cases h2 : tag_filter spec.runner_tag a <;>
      simp [List.filter_cons, h1, h2, route_passes, ih]

theorem filter_head?_split {α : Type} (l : List α) (p : α → Bool) (x : α)
    (h : (l.filter p).head? = some x) :
    p x = true ∧ ∃ pre post, l = pre ++ x :: post ∧ ∀ y ∈ pre, p y = false := by
  induction l with
  | nil => simp at h
  | cons a as ih =>
    by_cases ha : p a
    · rw [List.filter_cons_of_pos ha] at h
      simp only [List.head?_cons, Option.some.injEq] at h
      subst h
      exact ⟨ha, [], as, rfl, by simp⟩
    · rw [List.filter_cons_of_neg (by simpa using ha)] at h
      obtain ⟨hp, pre, post, hl, hpre⟩ := ih h
      refine ⟨hp, a :: pre, post, by rw [hl]; rfl, ?_⟩
      intro y hy
      rcases List.mem_cons.mp hy with rfl | hy'
      · simpa using ha
      · exact hpre y hy'

/-- C1 — Router selection soundness: a picked runner supports the spec, its
registered entry matches the spec's `runner-tag` when one is set, the entry
is the first registered one passing both filters, and when no entry survives
`build` fails with `NoRunner` naming the spec's kind. -/
theorem router_selection_soundness (router : RunnerRouter) (spec : CreateSpec) :
    (∀ r, router.pick spec = some r →
      r.supports spec = true
      ∧ ∃ e pre post, router.runners = pre ++ e :: post ∧ e.runner = r
          ∧ route_passes spec e = true
          ∧ (∀ y ∈ pre, route_passes spec y = false)
          ∧ (∀ t, spec.runner_tag = some t →
              e.labels.get LABEL_RUNNER_TAG = some t))
    ∧ (router.pick spec = Option.none → spec.kind ≠ TaskKind.noneKind →
        router.build spec = Except.error (CoreError.noRunner spec.kind.kind)) := by
  constructor
  · intro r hr
    unfold RunnerRouter.pick at hr
    rw [filter_filter_passes, List.head?_map] at hr
    obtain ⟨e, he, hre⟩ := Option.map_eq_some'.mp hr
    obtain ⟨hpass, pre, post, hl, hpre⟩ := filter_head?_split _ _ _ he
    have hpass' : (e.runner.supports spec && tag_filter spec.runner_tag e) = true := by
      simpa [route_passes] using hpass
    obtain ⟨hsupp, htag⟩ := Bool.and_eq_true_iff.mp hpass'
    refine ⟨hre ▸ hsupp, e, pre, post, hl, hre, hpass, hpre, ?_⟩
    intro t ht
    rw [ht] at htag
    unfold tag_filter at htag
    cases hg : e.labels.get LABEL_RUNNER_TAG with
    | none => rw [hg] at htag; cases htag
    | some actual =>
      rw [hg] at htag
      simp only at htag
      exact congrArg some (eq_of_beq htag)
  · intro hpick hkind
    unfold RunnerRouter.build
    cases hk : spec.kind with
    | noneKind => exact absurd hk hkind
    | subprocess c a e w f => rw [hpick]
    | wasm m a e => rw [hpick]
    | container i c a e => rw [hpick]

/-- Concrete router fixtures used by the routing witness. -/
def runnerA : Runner :=
  { name := "r1", supports := fun _ => true,
    build_task := fun _ _ => Except.ok ⟨"r1-task"⟩ }

def runnerB : Runner :=
  { name := "r2", supports := fun _ => true,
    build_task := fun _ _ => Except.ok ⟨"r2-task"⟩ }

def routerAB : RunnerRouter :=
  { runners := [⟨runnerA, Labels.new.insert LABEL_RUNNER_TAG "runner-a"⟩,
                ⟨runnerB, Labels.new.insert LABEL_RUNNER_TAG "runner-b"⟩],
    ctx := ⟨Env.new⟩ }

def routerEmpty : RunnerRouter := { runners := [], ctx := ⟨Env.new⟩ }

def specB : CreateSpec :=
  { slot := "test-slot",
    kind := TaskKind.subprocess "echo" ["hi"] Env.new Option.none Flag.enabled,
    timeout_ms := 10000, restart := RestartStrategy.never,
    backoff := ⟨JitterStrategy.equal, 1000, 5000, 2⟩,
    admission := AdmissionStrategy.dropIfRunning,
    labels := Labels.new.insert LABEL_RUNNER_TAG "runner-b" }

def specW : CreateSpec :=
  { slot := "test-slot",
    kind := TaskKind.wasm "mod.wasm" [] Env.new,
    timeout_ms := 10000, restart := RestartStrategy.never,
    backoff := ⟨JitterStrategy.equal, 1000, 5000, 2⟩,
    admission := AdmissionStrategy.dropIfRunning,
    labels := Labels.new }

theorem router_selection_soundness_witness :
    (runnerB.supports specB = true
     ∧ ∃ e pre post, routerAB.runners = pre ++ e :: post ∧ e.runner = runnerB
         ∧ route_passes specB e = true
         ∧ (∀ y ∈ pre, route_passes specB y = false)
         ∧ (∀ t, specB.runner_tag = some t →
             e.labels.get LABEL_RUNNER_TAG = some t))
    ∧ routerEmpty.build specW = Except.error (CoreError.noRunner "wasm") := by
  constructor
  · exact (router_selection_soundness routerAB specB).1 runnerB rfl
  · exact (router_selection_soundness routerEmpty specW).2 rfl (by decide)

/-! ### tno-exec: subprocess exit classification -/

/-- `std::process::ExitStatus`, as observed by the runner: either a normal
exit with a code (`status.code() = Some`) or termination by signal
(`status.code() = None`); `success()` holds exactly for exit code 0. -/
inductive ExitStatus where
  | exited (code : Int)
  | signaled
deriving DecidableEq, Repr

/-- `ExitStatus::success()`. -/
def ExitStatus.success : ExitStatus → Bool
  | .exited c => c == 0
  | .signaled => false

/-- `ExitStatus::code()`. -/
def ExitStatus.codeOpt : ExitStatus → Option Int
  | .exited c => some c
  | .signaled => Option.none

/-- `taskvisor::TaskError` variants produced by the subprocess body. -/
inductive TaskError where
  | fatal (reason : String)
  | fail (reason : String)
  | canceled
deriving DecidableEq, Repr

/-- The on-exit branch of `SubprocessRunner::build_task`
(runner.rs lines 177-200): a non-zero status with `fail_on_non_zero`
enabled fails the attempt with a reason naming the code (or signal
termination); everything else succeeds. -/
def classify_exit (status : ExitStatus) (fail_on_non_zero : Flag) :
    Except TaskError Unit :=
  if !status.success && fail_on_non_zero.is_enabled then
    Except.error (TaskError.fail
      (match status.codeOpt with
       | some code => "process exited with non-zero code: " ++ toString code
       | Option.none => "process terminated by signal"))
  else Except.ok ()

/-- C2 — Exit classification: non-zero status with `fail_on_non_zero` enabled
reports failure with a reason naming the code (or signal termination);
otherwise the attempt succeeds; in particular exit code 7 with
`fail_on_non_zero` disabled yields success. -/
theorem exit_classification (st : ExitStatus) (f : Flag) :
    (st.success = false → f.is_enabled = true →
      classify_exit st f = Except.error (TaskError.fail
        (match st.codeOpt with
         | some code => "process exited with non-zero code: " ++ toString code
         | Option.none => "process terminated by signal")))
    ∧ (st.success = true ∨ f.is_enabled = false → classify_exit st f = Except.ok ())
    ∧ classify_exit (ExitStatus.exited 7) Flag.disabled = Except.ok () := by
  refine ⟨?_, ?_, rfl⟩
  · intro hs hf
    unfold classify_exit
    rw [hs, hf]
    rfl
  · intro h
    unfold classify_exit
    rcases h with hs | hf
    · rw [hs]; rfl
    · rw [hf]; simp

theorem exit_classification_witness :
    classify_exit (ExitStatus.exited 7) Flag.enabled
      = Except.error (TaskError.fail ("process exited with non-zero code: " ++ toString (7 : Int)))
    ∧ classify_exit (ExitStatus.exited 7) Flag.disabled = Except.ok () := by
  constructor
  · exact (exit_classification (ExitStatus.exited 7) Flag.enabled).1 (by decide) rfl
  · exact (exit_classification (ExitStatus.exited 7) Flag.disabled).2.2

/-! ### tno-exec: backend configuration types -/

/-- `RlimitConfig` from tno-exec/src/utils/limits.rs. -/
structure RlimitConfig where
  max_open_files : Option Nat
  max_file_size_bytes : Option Nat
  disable_core_dumps : Bool
deriving DecidableEq, Repr

/-- `CpuMax` from tno-exec/src/utils/cgroups.rs. -/
structure CpuMax where
  quota : Option Nat
  period : Nat
deriving DecidableEq, Repr

/-- `CgroupLimits` from tno-exec/src/utils/cgroups.rs. -/
structure CgroupLimits where
  cpu : Option CpuMax
  memory : Option Nat
  pids : Option Nat
deriving DecidableEq, Repr

/-- `LinuxCapability` from tno-exec/src/utils/security.rs. -/
inductive LinuxCapability where
  | chown | dacOverride | dacReadSearch | fowner | fsetid | kill
  | setgid | setuid | setpcap | netBindService | netRaw | netAdmin
  | sysChroot | sysPtrace | sysAdmin | sysBoot | sysNice | sysResource
  | sysTime | mknod | auditWrite | auditControl | setfcap
deriving DecidableEq, Repr

/-- `SecurityConfig` from tno-exec/src/utils/security.rs. -/
structure SecurityConfig where
  drop_all_caps : Bool
  keep_caps : List LinuxCapability
  no_new_privs : Bool
deriving DecidableEq, Repr

/-- `SubprocessBackendConfig` from tno-exec/src/subprocess/backend.rs. -/
structure SubprocessBackendConfig where
  rlimits : Option RlimitConfig
  cgroups : Option CgroupLimits
  security : Option SecurityConfig
deriving DecidableEq, Repr

/-- `SubprocessConfig` from tno-exec/src/subprocess/task.rs: the normalized
task config frozen into a built unit. -/
structure SubprocessConfig where
  run_id : String
  command : String
  args : List String
  env : Env
  cwd : Option String
  fail_on_non_zero : Flag
deriving DecidableEq, Repr

/-! ### tno-exec: output capture and line truncation -/

/-- `LogConfig` from tno-exec/src/subprocess/logger.rs. -/
structure LogConfig where
  max_line_length : Nat
  stdout_info : Bool
  stderr_warn : Bool
deriving DecidableEq, Repr

/-- `LogConfig::default()`. -/
def LogConfig.default : LogConfig := ⟨4096, true, true⟩

/-- `truncate_line` from runner.rs lines 216-226.  The Rust function walks
`line.chars()`, i.e. the Unicode scalar values of the line, modelled here as
a `List Char`; this cut can therefore never split a scalar value. -/
def truncate_line (line : List Char) (max_chars : Nat) : List Char :=
  let total := line.length
  if total ≤ max_chars then line
  else
    line.take max_chars
      ++ ("... (truncated " ++ Nat.repr (total - max_chars) ++ " chars)").data

/-- The per-line step of `log_stream` (runner.rs lines 251-255): truncate only
when `max_line_length > 0`, else log the raw line. -/
def logged_line (config : LogConfig) (raw_line : List Char) : List Char :=
  if config.max_line_length > 0 then truncate_line raw_line config.max_line_length
  else raw_line

/-- C9 — Output-line truncation: with `max_line_length = m > 0`, a line of at
most `m` scalar values is logged unchanged; a longer line is logged as its
first `m` scalar values followed by `"... (truncated N chars)"` where `N` is
the number of scalars removed, and the first `m` scalars of the logged line
are exactly those of the input (the cut is at a scalar boundary). -/
theorem output_line_truncation (cfg : LogConfig) (line : List Char)
    (hm : 0 < cfg.max_line_length) :
    (line.length ≤ cfg.max_line_length → logged_line cfg line = line)
    ∧ (cfg.max_line_length < line.length →
        logged_line cfg line =
          line.take cfg.max_line_length
            ++ ("... (truncated " ++ Nat.repr (line.length - cfg.max_line_length)
                  ++ " chars)").data
        ∧ (logged_line cfg line).take cfg.max_line_length
            = line.take cfg.max_line_length
        ∧ (line.take cfg.max_line_length).length = cfg.max_line_length) := by
  constructor
  · intro hle
    simp [logged_line, truncate_line, hm, hle]
  · intro hgt
    have hne : ¬ line.length ≤ cfg.max_line_length := Nat.not_le.mpr hgt
    have heq : logged_line cfg line =
        line.take cfg.max_line_length
          ++ ("... (truncated " ++ Nat.repr (line.length - cfg.max_line_length)
                ++ " chars)").data := by
      simp [logged_line, truncate_line, hm, hne]
    have hlen : (line.take cfg.max_line_length).length = cfg.max_line_length := by
      simp [List.length_take, Nat.min_eq_left (Nat.le_of_lt hgt)]
    refine ⟨heq, ?_, hlen⟩
    rw [heq, List.take_append_eq_append_take, hlen, Nat.sub_self,
      List.take_zero, List.append_nil, List.take_take, Nat.min_self]

theorem output_line_truncation_witness :
    (("hi".data.length ≤ LogConfig.default.max_line_length →
        logged_line LogConfig.default "hi".data = "hi".data)
     ∧ (LogConfig.default.max_line_length < "hi".data.length →
        logged_line LogConfig.default "hi".data =
          "hi".data.take LogConfig.default.max_line_length
            ++ ("... (truncated "
                  ++ Nat.repr ("hi".data.length - LogConfig.default.max_line_length)
                  ++ " chars)").data
        ∧ (logged_line LogConfig.default "hi".data).take LogConfig.default.max_line_length
            = "hi".data.take LogConfig.default.max_line_length
        ∧ ("hi".data.take LogConfig.default.max_line_length).length
            = LogConfig.default.max_line_length))
    ∧ logged_line ⟨1, true, true⟩ "abc".data
        = "abc".data.take 1 ++ ("... (truncated " ++ Nat.repr 2 ++ " chars)").data := by
  constructor
  · exact output_line_truncation LogConfig.default "hi".data (by decide)
  · have h := (output_line_truncation ⟨1, true, true⟩ "abc".data (by decide)).2 (by decide)
    exact h.1

/-! ### tno-exec: stdout/stderr capture mode (C10) -/

/-- `std::process::Stdio` configuration as set on the child command. -/
inductive StdioMode where
  | piped
  | inherit
deriving DecidableEq, Repr

/-- The child `Command` as configured by the execution body. -/
structure ChildCommand where
  program : String
  args : List String
  cwd : Option String
  envPairs : List KeyValue
  stdoutMode : StdioMode
  stderrMode : StdioMode
deriving DecidableEq, Repr

set_option linter.unusedVariables false in
/-- Command construction from `SubprocessRunner::build_task`
(runner.rs lines 132-141).  `runner_cfg` (the captured backend config, which
would carry any output-log configuration) is in scope in the source closure,
but `cmd.stdout(Stdio::piped())` and `cmd.stderr(Stdio::piped())` are executed
unconditionally, before `apply_to_command` attaches the pre-exec hooks. -/
def configure_command (task_cfg : SubprocessConfig)
    (runner_cfg : Option SubprocessBackendConfig) : ChildCommand :=
  { program := task_cfg.command
    args := task_cfg.args
    cwd := task_cfg.cwd
    envPairs := task_cfg.env.pairs
    stdoutMode := StdioMode.piped
    stderrMode := StdioMode.piped }

/-- Concrete task config for the C10 counterexample. -/
def taskCfg0 : SubprocessConfig :=
  { run_id := "sub-slot-1", command := "echo", args := ["hi"],
    env := Env.new, cwd := Option.none, fail_on_non_zero := Flag.enabled }

/-- C10 counterexample — with no backend configuration at all (so no
output-log configuration is present), the built unit still pipes both
stdout and stderr instead of inheriting them. -/
theorem stdio_capture_counterexample :
    (configure_command taskCfg0 Option.none).stdoutMode = StdioMode.piped
    ∧ (configure_command taskCfg0 Option.none).stderrMode = StdioMode.piped
    ∧ StdioMode.piped ≠ StdioMode.inherit :=
  ⟨rfl, rfl, by decide⟩

/-- C10 (amended) — the child's stdout and stderr are always piped,
independently of the backend configuration (and hence of whether an
output-log configuration is present). -/
theorem stdio_always_piped (task_cfg : SubprocessConfig)
    (runner_cfg : Option SubprocessBackendConfig) :
    (configure_command task_cfg runner_cfg).stdoutMode = StdioMode.piped
    ∧ (configure_command task_cfg runner_cfg).stderrMode = StdioMode.piped
    ∧ configure_command task_cfg runner_cfg
        = configure_command task_cfg Option.none :=
  ⟨rfl, rfl, rfl⟩

/-! ### tno-exec: child-side pre-exec hooks (limits.rs, cgroups.rs, security.rs)

The hooks run between fork and exec; their only inputs besides the config are
the outcomes of the underlying system calls, which we pass in explicitly.
Errors carry the raw OS errno (`Int`); the rlimit hook can also fail on the
hook-side range check. -/

/-- The rlimit resources configured by `unix_impl::attach_rlimits`. -/
inductive RlimitResource where
  | nofile
  | fsize
  | core
deriving DecidableEq, Repr

/-- Failure of one `apply_rlimit` call: either the hook-side range check
(`InvalidInput`, "rlimit value exceeds platform maximum") or a raw OS error
from `getrlimit`/`setrlimit`. -/
inductive RlimitApplyError where
  | exceedsPlatformMax
  | sys (errno : Int)
deriving DecidableEq, Repr

/-- One optional step of the rlimit hook: run the action when the limit is
configured, else do nothing. -/
def rlimit_step (o : Option Nat) (act : Nat → Except RlimitApplyError Unit) :
    Except RlimitApplyError Unit :=
  match o with
  | some n => act n
  | Option.none => Except.ok ()

/-- The pre-exec closure of `unix_impl::attach_rlimits` (limits.rs lines
112-144): apply `RLIMIT_NOFILE`, then `RLIMIT_FSIZE`, then `RLIMIT_CORE = 0`
when `disable_core_dumps`; any failure is returned (fatal to the spawn).
`applyOutcome` is the outcome of `apply_rlimit` for each resource/value. -/
def rlimits_pre_exec (cfg : RlimitConfig)
    (applyOutcome : RlimitResource → Nat → Except RlimitApplyError Unit) :
    Except RlimitApplyError Unit := do
  rlimit_step cfg.max_open_files (applyOutcome RlimitResource.nofile)
  rlimit_step cfg.max_file_size_bytes (applyOutcome RlimitResource.fsize)
  if cfg.disable_core_dumps then applyOutcome RlimitResource.core 0
  else Except.ok ()

/-- Outcomes of the system calls made by the cgroup pre-exec closure. -/
structure CgroupSysOutcome where
  cgroup_v2_detected : Bool
  create_dir : Except Int Unit
  apply_limits : Except Int Unit
  add_proc : Except Int Unit
deriving Repr

set_option linter.unusedVariables false in
/-- The pre-exec closure of `cgroups::linux_impl::attach` (cgroups.rs lines
152-186): missing cgroup v2, a failed mkdir, a failed limit-file write and a
failed `cgroup.procs` write are each logged and swallowed — the closure
returns `Ok(())` in every case so exec proceeds without the limits. -/
def cgroups_pre_exec (limits : CgroupLimits) (sys : CgroupSysOutcome) :
    Except Int Unit :=
  if !sys.cgroup_v2_detected then Except.ok ()
  else
    match sys.create_dir with
    | Except.error _ => Except.ok ()
    | Except.ok () =>
      match sys.apply_limits with
      | Except.error _ => Except.ok ()
      | Except.ok () =>
        match sys.add_proc with
        | Except.error _ => Except.ok ()
        | Except.ok () => Except.ok ()

/-- The pre-exec closure of `security::linux_impl::attach` (security.rs lines
212-241): the capability drop runs first and its failure is only logged; the
result of the closure is the `no_new_privs` outcome when that flag is set,
else success. -/
def security_pre_exec (cfg : SecurityConfig)
    (drop_capabilities : Except Int Unit) (set_no_new_privs : Except Int Unit) :
    Except Int Unit :=
  let _caps_result : Except Int Unit :=
    if cfg.drop_all_caps then drop_capabilities else Except.ok ()
  if cfg.no_new_privs then set_no_new_privs
  else Except.ok ()

set_option linter.unreachableTactic false in
set_option linter.unusedTactic false in
/-- C4 — Pre-exec hook fatality split: a failed rlimit step makes the rlimit
hook fail (the hook succeeds exactly when every configured step succeeds);
the cgroup hook always returns success whatever fails; and the security hook
propagates the `no_new_privs` outcome (fatal) while the capability-drop
outcome never changes its result. -/
theorem pre_exec_fatality_split
    (rcfg : RlimitConfig)
    (applyOutcome : RlimitResource → Nat → Except RlimitApplyError Unit)
    (limits : CgroupLimits) (sys : CgroupSysOutcome)
    (scfg : SecurityConfig) (dropc dropc' nnp : Except Int Unit) :
    ((rlimits_pre_exec rcfg applyOutcome = Except.ok ()) ↔
       ((∀ n, rcfg.max_open_files = some n →
           applyOutcome RlimitResource.nofile n = Except.ok ())
        ∧ (∀ n, rcfg.max_file_size_bytes = some n →
            applyOutcome RlimitResource.fsize n = Except.ok ())
        ∧ (rcfg.disable_core_dumps = true →
            applyOutcome RlimitResource.core 0 = Except.ok ())))
    ∧ cgroups_pre_exec limits sys = Except.ok ()
    ∧ (scfg.no_new_privs = true → security_pre_exec scfg dropc nnp = nnp)
    ∧ (scfg.no_new_privs = false → security_pre_exec scfg dropc nnp = Except.ok ())
    ∧ security_pre_exec scfg dropc nnp = security_pre_exec scfg dropc' nnp := by
  refine ⟨?_, ?_, ?_, ?_, ?_⟩
  · unfold rlimits_pre_exec rlimit_step
    cases hof : rcfg.max_open_files with
    | none =>
      cases hfs : rcfg.max_file_size_bytes with
      | none =>
        cases hcd : rcfg.disable_core_dumps <;>
          simp [bind, Except.bind, hcd] <;>
          constructor <;> intro h <;> simp_all
      | some fs =>
        cases hres : applyOutcome RlimitResource.fsize fs <;>
          cases hcd : rcfg.disable_core_dumps <;>
          simp [bind, Except.bind, hres, hcd] <;>
          constructor <;> intro h <;> simp_all
    | some nf =>
      cases hres : applyOutcome RlimitResource.nofile nf with
      | error e => simp [bind, Except.bind, hres]
      | ok u =>
        cases u
        cases hfs : rcfg.max_file_size_bytes with
        | none =>
          cases hcd : rcfg.disable_core_dumps <;>
            simp [bind, Except.bind, hres, hcd] <;>
            constructor <;> intro h <;> simp_all
        | some fs =>
          cases hres2 : applyOutcome RlimitResource.fsize fs <;>
            cases hcd : rcfg.disable_core_dumps <;>
            simp [bind, Except.bind, hres, hres2, hcd] <;>
            constructor <;> intro h <;> simp_all
  · unfold cgroups_pre_exec
    cases hdet : sys.cgroup_v2_detected
    · rfl
    · cases hc : sys.create_dir with
      | error e => simp
      | ok u =>
        cases u
        cases ha : sys.apply_limits with
        | error e => simp [ha]
        | ok v =>
          cases v
          cases hp : sys.add_proc with
          | error e => simp [ha, hp]
          | ok w => cases w; simp [ha, hp]
  · intro h
    simp [security_pre_exec, h]
  · intro h
    simp [security_pre_exec, h]
  · simp [security_pre_exec]

/-- Fixtures for the pre-exec fatality witness. -/
def scfg0 : SecurityConfig :=
  { drop_all_caps := true, keep_caps := [], no_new_privs := true }

def rcfg0 : RlimitConfig :=
  { max_open_files := some 1024, max_file_size_bytes := some 4096,
    disable_core_dumps := true }

def sys0 : CgroupSysOutcome :=
  { cgroup_v2_detected := true, create_dir := Except.ok (),
    apply_limits := Except.error 13, add_proc := Except.ok () }

def limits0 : CgroupLimits :=
  { cpu := some ⟨some 50000, 100000⟩, memory := some 67108864, pids := some 32 }

theorem pre_exec_fatality_split_witness :
    security_pre_exec scfg0 (Except.error 1) (Except.error 13) = Except.error 13
    ∧ cgroups_pre_exec limits0 sys0 = Except.ok () := by
  constructor
  · exact (pre_exec_fatality_split rcfg0 (fun _ _ => Except.ok ()) limits0 sys0
      scfg0 (Except.error 1) (Except.ok ()) (Except.error 13)).2.2.1 rfl
  · exact (pre_exec_fatality_split rcfg0 (fun _ _ => Except.ok ()) limits0 sys0
      scfg0 (Except.error 1) (Except.ok ()) (Except.error 13)).2.1

/-! ### tno-exec: apply_rlimit (C5) -/

/-- A `libc::rlimit` value. -/
structure Rlim where
  rlim_cur : Nat
  rlim_max : Nat
deriving DecidableEq, Repr

/-- Platform constants of the rlimit interface: `rlim_t::MAX` (the range
check bound, identical for every limit type on a given platform) and
`RLIM_INFINITY`. -/
structure RlimitPlatform where
  rlim_t_max : Nat
  rlim_infinity : Nat
deriving DecidableEq, Repr

/-- `unix_impl::apply_rlimit` (limits.rs lines 193-240), with `getrlimit`
returning `current`; `setrlimit` is then invoked on the returned pair (its
own syscall failure surfaces the OS error unchanged and is not part of the
stated law).  The requested value is rejected when it exceeds `rlim_t::MAX`;
otherwise soft := value and hard := infinity when the current hard limit is
infinity, the current hard limit when it exceeds the new soft limit, else
the new soft limit. -/
def apply_rlimit (plat : RlimitPlatform) (value : Nat) (current : Rlim) :
    Except RlimitApplyError Rlim :=
  if value > plat.rlim_t_max then Except.error RlimitApplyError.exceedsPlatformMax
  else
    let new_soft := value
    let new_hard :=
      if current.rlim_max == plat.rlim_infinity then plat.rlim_infinity
      else if current.rlim_max > new_soft then current.rlim_max
      else new_soft
    Except.ok ⟨new_soft, new_hard⟩

/-- C5 — Rlimit application law: a requested value above the platform maximum
is rejected; otherwise the soft limit becomes the requested value and the
hard limit is preserved as infinity when currently infinite, else raised to
`max(current hard, requested)`. -/
theorem rlimit_application_law (plat : RlimitPlatform) (value : Nat)
    (current : Rlim) :
    (value > plat.rlim_t_max →
      apply_rlimit plat value current
        = Except.error RlimitApplyError.exceedsPlatformMax)
    ∧ (value ≤ plat.rlim_t_max →
      apply_rlimit plat value current
        = Except.ok ⟨value,
            if current.rlim_max = plat.rlim_infinity then plat.rlim_infinity
            else Nat.max current.rlim_max value⟩) := by
  constructor
  · intro h
    simp [apply_rlimit, h]
  · intro h
    have hnot : ¬ value > plat.rlim_t_max := Nat.not_lt.mpr h
    unfold apply_rlimit
    rw [if_neg hnot]
    by_cases hinf : current.rlim_max = plat.rlim_infinity
    · simp [hinf]
    · have hbeq : (current.rlim_max == plat.rlim_infinity) = false :=
        beq_eq_false_iff_ne.mpr hinf
      by_cases hlt : current.rlim_max > value
      · simp [hbeq, hinf, hlt, Nat.max_eq_left (Nat.le_of_lt hlt)]
      · have hge : current.rlim_max ≤ value := Nat.not_lt.mp hlt
        simp [hbeq, hinf, hlt, Nat.max_eq_right hge]

theorem rlimit_application_law_witness :
    apply_rlimit ⟨100, 99⟩ 10 ⟨5, 20⟩ = Except.ok ⟨10, 20⟩
    ∧ apply_rlimit ⟨100, 99⟩ 10 ⟨5, 99⟩ = Except.ok ⟨10, 99⟩
    ∧ apply_rlimit ⟨100, 99⟩ 101 ⟨5, 20⟩
        = Except.error RlimitApplyError.exceedsPlatformMax := by
  refine ⟨?_, ?_, ?_⟩
  · have h := (rlimit_application_law ⟨100, 99⟩ 10 ⟨5, 20⟩).2 (by decide)
    simpa using h
  · have h := (rlimit_application_law ⟨100, 99⟩ 10 ⟨5, 99⟩).2 (by decide)
    simpa using h
  · exact (rlimit_application_law ⟨100, 99⟩ 101 ⟨5, 20⟩).1 (by decide)

/-! ### tno-api: proto → domain conversion (convert.rs)

The prost-generated proto structs are modelled with their enum fields already
decoded (decoding an out-of-range `i32` fails before the code under test
runs); `oneof`/`optional` fields are `Option`s as in the generated code. -/

/-- `proto::JitterStrategy`. -/
inductive ProtoJitterStrategy where
  | unspecified
  | none
  | full
  | equal
  | decorrelated
deriving DecidableEq, Repr

/-- `proto::RestartStrategy`. -/
inductive ProtoRestartStrategy where
  | unspecified
  | never
  | onFailure
  | always
deriving DecidableEq, Repr

/-- `proto::AdmissionStrategy`. -/
inductive ProtoAdmissionStrategy where
  | unspecified
  | dropIfRunning
  | replace
  | queue
deriving DecidableEq, Repr

/-- `proto::KeyValue`. -/
structure ProtoKeyValue where
  key : String
  value : String
deriving DecidableEq, Repr

/-- The `Subprocess` variant payload of `proto::TaskKind`. -/
structure ProtoSubprocess where
  command : String
  args : List String
  env : List ProtoKeyValue
  cwd : Option String
  fail_on_non_zero : Bool
deriving DecidableEq, Repr

/-- The `Wasm` variant payload of `proto::TaskKind`. -/
structure ProtoWasm where
  module : String
  args : List String
  env : List ProtoKeyValue
deriving DecidableEq, Repr

/-- The `Container` variant payload of `proto::TaskKind`. -/
structure ProtoContainer where
  image : String
  command : List String
  args : List String
  env : List ProtoKeyValue
deriving DecidableEq, Repr

/-- `proto::task_kind::Kind` (the oneof). -/
inductive ProtoTaskKindVariant where
  | subprocess (sub : ProtoSubprocess)
  | wasm (w : ProtoWasm)
  | container (c : ProtoContainer)
deriving DecidableEq, Repr

/-- `proto::TaskKind` (oneof wrapper with optional inner kind). -/
structure ProtoTaskKind where
  kind : Option ProtoTaskKindVariant
deriving DecidableEq, Repr

/-- `proto::BackoffStrategy` (`first_ms`, `max_ms` are `u64`; `factor` is
`f64`, modelled as `ℚ`). -/
structure ProtoBackoffStrategy where
  jitter : ProtoJitterStrategy
  first_ms : Nat
  max_ms : Nat
  factor : ℚ
deriving DecidableEq, Repr

/-- `proto::CreateSpec`. -/
structure ProtoCreateSpec where
  slot : String
  kind : Option ProtoTaskKind
  timeout_ms : Nat
  restart : ProtoRestartStrategy
  restart_interval_ms : Option Nat
  backoff : Option ProtoBackoffStrategy
  admission : ProtoAdmissionStrategy
  labels : List (String × String)
deriving DecidableEq, Repr

/-- `ApiError` from tno-api/src/error.rs (the variant produced by
conversion). -/
inductive ApiError where
  | invalidRequest (msg : String)
deriving DecidableEq, Repr

/-- Rust's `s.trim().is_empty()`: the string is empty after stripping leading
and trailing whitespace, i.e. every character is whitespace. -/
def trimIsEmpty (s : String) : Bool :=
  s.data.all (fun c => c.isWhitespace)

/-- `convert_env`: push every proto pair into a fresh env. -/
def convert_env (kvs : List ProtoKeyValue) : Env :=
  ⟨kvs.map (fun kv => ⟨kv.key, kv.value⟩)⟩

/-- `convert_task_kind` from convert.rs lines 100-145. -/
def convert_task_kind : ProtoTaskKindVariant → Except ApiError TaskKind
  | .subprocess sub =>
    if trimIsEmpty sub.command then
      Except.error (ApiError.invalidRequest "subprocess command is empty")
    else
      Except.ok (TaskKind.subprocess sub.command sub.args (convert_env sub.env)
        sub.cwd ⟨sub.fail_on_non_zero⟩)
  | .wasm w =>
    if trimIsEmpty w.module then
      Except.error (ApiError.invalidRequest "wasm module path is empty")
    else Except.ok (TaskKind.wasm w.module w.args (convert_env w.env))
  | .container c =>
    if trimIsEmpty c.image then
      Except.error (ApiError.invalidRequest "container image is empty")
    else
      Except.ok (TaskKind.container c.image
        (if c.command.isEmpty then Option.none else some c.command)
        c.args (convert_env c.env))

/-- `convert_restart_strategy` from convert.rs lines 155-167. -/
def convert_restart_strategy (strategy : ProtoRestartStrategy)
    (interval_ms : Option Nat) : Except ApiError RestartStrategy :=
  match strategy with
  | .never => Except.ok RestartStrategy.never
  | .onFailure => Except.ok RestartStrategy.onFailure
  | .always => Except.ok (RestartStrategy.always interval_ms)
  | .unspecified =>
    Except.error (ApiError.invalidRequest "restart strategy not specified")

/-- `convert_backoff_strategy` from convert.rs lines 169-207. -/
def convert_backoff_strategy (backoff : ProtoBackoffStrategy) :
    Except ApiError BackoffStrategy :=
  match (match backoff.jitter with
    | ProtoJitterStrategy.none => Except.ok JitterStrategy.none
    | ProtoJitterStrategy.full => Except.ok JitterStrategy.full
    | ProtoJitterStrategy.equal => Except.ok JitterStrategy.equal
    | ProtoJitterStrategy.decorrelated => Except.ok JitterStrategy.decorrelated
    | ProtoJitterStrategy.unspecified =>
      Except.error (ApiError.invalidRequest "jitter strategy not specified") :
      Except ApiError JitterStrategy) with
  | Except.error e => Except.error e
  | Except.ok jitter =>
    if backoff.first_ms = 0 then
      Except.error (ApiError.invalidRequest "backoff first_ms cannot be zero")
    else if backoff.max_ms = 0 then
      Except.error (ApiError.invalidRequest "backoff max_ms cannot be zero")
    else if backoff.factor ≤ 0 then
      Except.error (ApiError.invalidRequest "backoff factor must be positive")
    else
      Except.ok { jitter := jitter, first_ms := backoff.first_ms,
                  max_ms := backoff.max_ms, factor := backoff.factor }

/-- `convert_admission_strategy` from convert.rs lines 209-220. -/
def convert_admission_strategy :
    ProtoAdmissionStrategy → Except ApiError AdmissionStrategy
  | .dropIfRunning => Except.ok AdmissionStrategy.dropIfRunning
  | .replace => Except.ok AdmissionStrategy.replace
  | .queue => Except.ok AdmissionStrategy.queue
  | .unspecified =>
    Except.error (ApiError.invalidRequest "admission strategy not specified")

/-- `convert_labels`: insert every map entry into fresh labels. -/
def convert_labels (m : List (String × String)) : Labels :=
  m.foldl (fun l kv => l.insert kv.1 kv.2) Labels.new

/-- `validate_slot` from convert.rs lines 230-235. -/
def validate_slot (slot : String) : Except ApiError String :=
  if trimIsEmpty slot then
    Except.error (ApiError.invalidRequest "slot cannot be empty")
  else Except.ok slot

/-- `validate_timeout` from convert.rs lines 237-242. -/
def validate_timeout (timeout_ms : Nat) : Except ApiError Nat :=
  if timeout_ms = 0 then
    Except.error (ApiError.invalidRequest "timeout_ms cannot be zero")
  else Except.ok timeout_ms

/-- `TryFrom<proto::CreateSpec> for CreateSpec` from convert.rs lines 63-98,
with the fallible steps in the source's evaluation order. -/
def tryFromCreateSpec (spec : ProtoCreateSpec) : Except ApiError CreateSpec :=
  match spec.kind with
  | Option.none => Except.error (ApiError.invalidRequest "missing task kind")
  | some kw =>
    match kw.kind with
    | Option.none => Except.error (ApiError.invalidRequest "missing task kind variant")
    | some kindv =>
      match convert_task_kind kindv with
      | Except.error e => Except.error e
      | Except.ok task_kind =>
        match convert_restart_strategy spec.restart spec.restart_interval_ms with
        | Except.error e => Except.error e
        | Except.ok restart =>
          match spec.backoff with
          | Option.none =>
            Except.error (ApiError.invalidRequest "missing backoff strategy")
          | some backoff =>
            match validate_slot spec.slot with
            | Except.error e => Except.error e
            | Except.ok slot =>
              match validate_timeout spec.timeout_ms with
              | Except.error e => Except.error e
              | Except.ok timeout_ms =>
                match convert_backoff_strategy backoff with
                | Except.error e => Except.error e
                | Except.ok backoffS =>
                  match convert_admission_strategy spec.admission with
                  | Except.error e => Except.error e
                  | Except.ok admission =>
                    Except.ok { slot := slot, kind := task_kind,
                                timeout_ms := timeout_ms, restart := restart,
                                backoff := backoffS, admission := admission,
                                labels := convert_labels spec.labels }

theorem validate_timeout_ok (t v : Nat) (h : validate_timeout t = Except.ok v) :
    v = t ∧ t ≠ 0 := by
  unfold validate_timeout at h
  by_cases ht : t = 0
  · rw [if_pos ht] at h; cases h
  · rw [if_neg ht] at h
    cases h
    exact ⟨rfl, ht⟩

theorem convert_backoff_strategy_ok (b : ProtoBackoffStrategy)
    (s : BackoffStrategy) (h : convert_backoff_strategy b = Except.ok s) :
    s.first_ms = b.first_ms ∧ s.max_ms = b.max_ms ∧ s.factor = b.factor
    ∧ b.first_ms ≠ 0 ∧ b.max_ms ≠ 0 ∧ 0 < b.factor := by
  unfold convert_backoff_strategy at h
  cases hj : b.jitter <;> rw [hj] at h <;> simp only [] at h
  case unspecified => cases h
  all_goals (
    by_cases h1 : b.first_ms = 0
    · rw [if_pos h1] at h; cases h
    · rw [if_neg h1] at h
      by_cases h2 : b.max_ms = 0
      · rw [if_pos h2] at h; cases h
      · rw [if_neg h2] at h
        by_cases h3 : b.factor ≤ 0
        · rw [if_pos h3] at h; cases h
        · rw [if_neg h3] at h
          cases h
          exact ⟨rfl, rfl, rfl, h1, h2, lt_of_not_le h3⟩)

theorem tryFrom_ok_characterization (p : ProtoCreateSpec) (s : CreateSpec)
    (h : tryFromCreateSpec p = Except.ok s) :
    s.timeout_ms = p.timeout_ms ∧ p.timeout_ms ≠ 0
    ∧ ∃ b, p.backoff = some b
        ∧ s.backoff.first_ms = b.first_ms ∧ s.backoff.max_ms = b.max_ms
        ∧ s.backoff.factor = b.factor
        ∧ b.first_ms ≠ 0 ∧ b.max_ms ≠ 0 ∧ 0 < b.factor := by
  unfold tryFromCreateSpec at h
  split at h
  · exact Except.noConfusion h
  split at h
  · exact Except.noConfusion h
  split at h
  · exact Except.noConfusion h
  split at h
  · exact Except.noConfusion h
  split at h
  · exact Except.noConfusion h
  rename_i b hb
  split at h
  · exact Except.noConfusion h
  split at h
  · exact Except.noConfusion h
  rename_i tms hto
  split at h
  · exact Except.noConfusion h
  rename_i bs hbs
  split at h
  · exact Except.noConfusion h
  cases h
  obtain ⟨hveq, hvnz⟩ := validate_timeout_ok _ _ hto
  obtain ⟨h1, h2, h3, h4, h5, h6⟩ := convert_backoff_strategy_ok _ _ hbs
  exact ⟨hveq, hvnz, b, hb, h1, h2, h3, h4, h5, h6⟩

/-- C6 — Wire-boundary validation: conversion of an incoming gRPC
`CreateSpec` fails with an invalid-request error whenever `timeout_ms = 0`,
`backoff.first_ms = 0`, `backoff.max_ms = 0` or `factor ≤ 0`; a successful
conversion carries `timeout_ms` and the backoff fields through unchanged. -/
theorem wire_boundary_validation (p : ProtoCreateSpec) :
    (p.timeout_ms = 0 →
      ∃ msg, tryFromCreateSpec p = Except.error (ApiError.invalidRequest msg))
    ∧ (∀ b, p.backoff = some b →
        b.first_ms = 0 ∨ b.max_ms = 0 ∨ b.factor ≤ 0 →
        ∃ msg, tryFromCreateSpec p = Except.error (ApiError.invalidRequest msg))
    ∧ (∀ s, tryFromCreateSpec p = Except.ok s →
        s.timeout_ms = p.timeout_ms
        ∧ ∃ b, p.backoff = some b ∧ s.backoff.first_ms = b.first_ms
            ∧ s.backoff.max_ms = b.max_ms ∧ s.backoff.factor = b.factor) := by
  refine ⟨?_, ?_, ?_⟩
  · intro h0
    cases hres : tryFromCreateSpec p with
    | error e => cases e with | invalidRequest msg => exact ⟨msg, rfl⟩
    | ok s =>
      exfalso
      obtain ⟨_, hvnz, _⟩ := tryFrom_ok_characterization p s hres
      exact hvnz h0
  · intro b hb hbad
    cases hres : tryFromCreateSpec p with
    | error e => cases e with | invalidRequest msg => exact ⟨msg, rfl⟩
    | ok s =>
      exfalso
      obtain ⟨_, _, b', hb', _, _, _, h4, h5, h6⟩ :=
        tryFrom_ok_characterization p s hres
      rw [hb] at hb'
      cases hb'
      rcases hbad with h | h | h
      · exact h4 h
      · exact h5 h
      · exact absurd h6 (not_lt_of_le h)
  · intro s hres
    obtain ⟨hts, _, b, hb, h1, h2, h3, _⟩ := tryFrom_ok_characterization p s hres
    exact ⟨hts, b, hb, h1, h2, h3⟩

/-- Fixtures for the wire-boundary witness. -/
def pGood : ProtoCreateSpec :=
  { slot := "s",
    kind := some ⟨some (ProtoTaskKindVariant.subprocess
      { command := "echo", args := [], env := [], cwd := Option.none,
        fail_on_non_zero := true })⟩,
    timeout_ms := 5000, restart := ProtoRestartStrategy.never,
    restart_interval_ms := Option.none,
    backoff := some { jitter := ProtoJitterStrategy.none, first_ms := 100,
                      max_ms := 400, factor := 2 },
    admission := ProtoAdmissionStrategy.dropIfRunning, labels := [] }

def pBad : ProtoCreateSpec :=
  { pGood with timeout_ms := 0 }

def specGood : CreateSpec :=
  { slot := "s",
    kind := TaskKind.subprocess "echo" [] ⟨[]⟩ Option.none ⟨true⟩,
    timeout_ms := 5000, restart := RestartStrategy.never,
    backoff := { jitter := JitterStrategy.none, first_ms := 100,
                 max_ms := 400, factor := 2 },
    admission := AdmissionStrategy.dropIfRunning, labels := Labels.new }

theorem wire_boundary_validation_witness :
    (∃ msg, tryFromCreateSpec pBad = Except.error (ApiError.invalidRequest msg))
    ∧ (specGood.timeout_ms = pGood.timeout_ms
       ∧ ∃ b, pGood.backoff = some b ∧ specGood.backoff.first_ms = b.first_ms
           ∧ specGood.backoff.max_ms = b.max_ms
           ∧ specGood.backoff.factor = b.factor) := by
  constructor
  · exact (wire_boundary_validation pBad).1 rfl
  · exact (wire_boundary_validation pGood).2.2 specGood rfl

/-! ### tno-core: backoff policy mapping and the backoff law (C3) -/

/-- `taskvisor::JitterPolicy`. -/
inductive JitterPolicy where
  | none
  | full
  | equal
  | decorrelated
deriving DecidableEq, Repr

/-- `to_jitter_policy` from tno-core/src/map/jitter.rs. -/
def to_jitter_policy : JitterStrategy → JitterPolicy
  | JitterStrategy.decorrelated => JitterPolicy.decorrelated
  | JitterStrategy.equal => JitterPolicy.equal
  | JitterStrategy.full => JitterPolicy.full
  | JitterStrategy.none => JitterPolicy.none

/-- `taskvisor::BackoffPolicy` (durations in milliseconds, as `ℚ`). -/
structure BackoffPolicy where
  first : ℚ
  max : ℚ
  jitter : JitterPolicy
  factor : ℚ
deriving DecidableEq, Repr

/-- `to_backoff_policy` from tno-core/src/map/backoff.rs: carry first/max/
factor and map the jitter strategy.  (The source also forwards an optional
fixed success delay, which concerns `RestartStrategy::Always` on success and
plays no part in the backoff law.) -/
def to_backoff_policy (s : BackoffStrategy) : BackoffPolicy :=
  { first := s.first_ms, max := s.max_ms,
    jitter := to_jitter_policy s.jitter, factor := s.factor }

/-- Modelled from the spec: the base-delay law of the taskvisor backoff
engine — the taskvisor crate is not under src/, src/ only maps the strategy
into its policy.  "the sequence of base delays for attempts 1,2,3,... is
base_k = min(max, first * factor^(k-1))". -/
def base_delay (p : BackoffPolicy) (k : Nat) : ℚ :=
  min p.max (p.first * p.factor ^ (k - 1))

/-- Modelled from the spec: the jitter transformation from base delay to
final delay, with uniform sampling modelled as membership in the stated
interval; `prev` is the previous delay (used only by `Decorrelated`):
`None → base`; `Full → Uniform[0, base]`; `Equal → base/2 + Uniform[0, base/2]`;
`Decorrelated → min(max, Uniform(first, prev*3))`. -/
def jitter_ok (p : BackoffPolicy) (base prev delay : ℚ) : Prop :=
  match p.jitter with
  | JitterPolicy.none => delay = base
  | JitterPolicy.full => 0 ≤ delay ∧ delay ≤ base
  | JitterPolicy.equal => ∃ u, 0 ≤ u ∧ u ≤ base / 2 ∧ delay = base / 2 + u
  | JitterPolicy.decorrelated => ∃ u, p.first ≤ u ∧ u ≤ prev * 3 ∧ delay = min p.max u

/-- Delay bounds at the policy level: under any jitter policy the final
delay lies in `[0, max]`, and `None` reproduces the base delay exactly. -/
theorem jitter_bounds (p : BackoffPolicy) (k : Nat) (prev delay : ℚ)
    (hmax0 : 0 ≤ p.max) (hfirst0 : 0 ≤ p.first) (hf : 0 ≤ p.factor)
    (h : jitter_ok p (base_delay p k) prev delay) :
    (p.jitter = JitterPolicy.none → delay = base_delay p k)
    ∧ 0 ≤ delay ∧ delay ≤ p.max := by
  have hbase0 : 0 ≤ base_delay p k :=
    le_min hmax0 (mul_nonneg hfirst0 (pow_nonneg hf _))
  have hbasemax : base_delay p k ≤ p.max := min_le_left _ _
  unfold jitter_ok at h
  cases hj : p.jitter with
  | none =>
    rw [hj] at h
    simp only [] at h
    refine ⟨fun _ => h, ?_, ?_⟩
    · rw [h]; exact hbase0
    · rw [h]; exact hbasemax
  | full =>
    rw [hj] at h
    simp only [] at h
    exact ⟨fun heq => (by cases heq), h.1, le_trans h.2 hbasemax⟩
  | equal =>
    rw [hj] at h
    simp only [] at h
    obtain ⟨u, hu0, hub, hdu⟩ := h
    refine ⟨fun heq => (by cases heq), ?_, ?_⟩
    · rw [hdu]; linarith
    · rw [hdu]; linarith
  | decorrelated =>
    rw [hj] at h
    simp only [] at h
    obtain ⟨u, hu1, hu2, hdu⟩ := h
    refine ⟨fun heq => (by cases heq), ?_, ?_⟩
    · rw [hdu]
      exact le_min hmax0 (le_trans hfirst0 hu1)
    · rw [hdu]
      exact min_le_left _ _

set_option linter.unusedVariables false in
/-- C3 — Backoff law: for attempt `k ≥ 1` the base delay is
`min(max, first*factor^(k-1))`; with `jitter = None` the final delay equals
the base exactly, and under every jitter policy the final delay lies in
`[0, max]`. -/
theorem backoff_law (s : BackoffStrategy) (k : Nat) (prev delay : ℚ)
    (hf : 0 ≤ s.factor) (hk : 1 ≤ k)
    (h : jitter_ok (to_backoff_policy s)
          (base_delay (to_backoff_policy s) k) prev delay) :
    (s.jitter = JitterStrategy.none →
       delay = min (s.max_ms : ℚ) (s.first_ms * s.factor ^ (k - 1)))
    ∧ 0 ≤ delay ∧ delay ≤ (s.max_ms : ℚ) := by
  have hb := jitter_bounds (to_backoff_policy s) k prev delay
    (show (0 : ℚ) ≤ (s.max_ms : ℚ) by positivity)
    (show (0 : ℚ) ≤ (s.first_ms : ℚ) by positivity)
    hf h
  refine ⟨fun hj => ?_, hb.2.1, hb.2.2⟩
  have hpj : (to_backoff_policy s).jitter = JitterPolicy.none := by
    simp [to_backoff_policy, hj, to_jitter_policy]
  have hd := hb.1 hpj
  simpa [base_delay, to_backoff_policy] using hd

/-- Backoff strategy fixture for the backoff witness: attempt 3 under
`{first = 100, max = 400, factor = 2, jitter = None}` gives delay 400. -/
def sWitness : BackoffStrategy :=
  { jitter := JitterStrategy.none, first_ms := 100, max_ms := 400, factor := 2 }

theorem backoff_law_witness :
    (sWitness.jitter = JitterStrategy.none →
       (400 : ℚ) = min (sWitness.max_ms : ℚ)
         (sWitness.first_ms * sWitness.factor ^ (3 - 1)))
    ∧ (0 : ℚ) ≤ 400 ∧ (400 : ℚ) ≤ (sWitness.max_ms : ℚ) := by
  refine backoff_law sWitness 3 0 400 (by norm_num [sWitness]) (by norm_num) ?_
  show jitter_ok (to_backoff_policy sWitness)
    (base_delay (to_backoff_policy sWitness) 3) 0 400
  norm_num [jitter_ok, to_backoff_policy, to_jitter_policy, base_delay, sWitness]

/-! ### tno-core: task-state tracker (C8) -/

/-- `TaskStatus` from tno-model. -/
inductive TaskStatus where
  | pending
  | running
  | succeeded
  | failed
  | timeout
  | canceled
  | exhausted
deriving DecidableEq, Repr

/-- `taskvisor::EventKind` (the kinds relevant to the state subscriber plus
representatives of those it ignores). -/
inductive EventKind where
  | taskAddRequested
  | taskAdded
  | taskStarting
  | taskStopped
  | taskFailed
  | timeoutHit
  | backoffScheduled
  | actorExhausted
  | actorDead
  | taskRemoveRequested
  | taskRemoved
deriving DecidableEq, Repr

/-- `taskvisor::Event` (the fields read by the subscriber). -/
structure Event where
  kind : EventKind
  task : Option String
  reason : Option String
deriving DecidableEq, Repr

/-- Modelled from the spec: one entry of the task-state directory.
`tno-core/src/state/mod.rs` (the `TaskState` store) is not under src/ — only
the subscriber is; the spec gives task info as
`{id, slot, status, attempt, created_at, updated_at, error?}`, of which
status, attempt and error figure in the claim. -/
structure TaskEntry where
  status : TaskStatus
  attempt : Nat
  error : Option String
deriving DecidableEq, Repr

/-- Modelled from the spec: the in-memory directory keyed by task id. -/
abbrev TaskStateDir := List (String × TaskEntry)

/-- Modelled from the spec: `TaskState::update_status` sets status and error
of the entry with the given id. -/
def update_status (st : TaskStateDir) (id : String) (status : TaskStatus)
    (error : Option String) : TaskStateDir :=
  st.map (fun e =>
    if e.1 == id then (e.1, { e.2 with status := status, error := error })
    else e)

/-- Modelled from the spec: `TaskState::increment_attempt` ("`attempt` is a
non-decreasing counter incremented on each start transition"). -/
def increment_attempt (st : TaskStateDir) (id : String) : TaskStateDir :=
  st.map (fun e =>
    if e.1 == id then (e.1, { e.2 with attempt := e.2.attempt + 1 })
    else e)

/-- Modelled from the spec: `TaskState::remove_task` drops the entry. -/
def remove_task (st : TaskStateDir) (id : String) : TaskStateDir :=
  st.filter (fun e => !(e.1 == id))

/-- Directory lookup by task id. -/
def dir_get (st : TaskStateDir) (id : String) : Option TaskEntry :=
  (st.find? (fun e => e.1 == id)).map Prod.snd

/-- `StateSubscriber::on_event` from tno-core/src/state/subscriber.rs:
events without a task id are ignored; `TaskAdded` only emits a trace
("already in state") and leaves the directory unchanged; the remaining kinds
update or drop the entry for the event's task id. -/
def on_event (st : TaskStateDir) (event : Event) : TaskStateDir :=
  match event.task with
  | Option.none => st
  | some task_id =>
    match event.kind with
    | EventKind.taskAdded => st
    | EventKind.taskStarting =>
      update_status (increment_attempt st task_id) task_id
        TaskStatus.running Option.none
    | EventKind.taskStopped =>
      update_status st task_id TaskStatus.succeeded Option.none
    | EventKind.taskFailed =>
      update_status st task_id TaskStatus.failed
        (some (event.reason.getD "unknown"))
    | EventKind.timeoutHit =>
      update_status st task_id TaskStatus.timeout (some "timeout")
    | EventKind.actorExhausted =>
      update_status st task_id TaskStatus.exhausted
        (some (event.reason.getD "exhausted"))
    | EventKind.taskRemoved => remove_task st task_id
    | _ => st

theorem dir_get_update_status (st : TaskStateDir) (id : String)
    (status : TaskStatus) (err : Option String) :
    dir_get (update_status st id status err) id
      = (dir_get st id).map (fun en => { en with status := status, error := err }) := by
  induction st with
  | nil => rfl
  | cons e rest ih =>
    by_cases he : e.1 == id
    · simp [dir_get, update_status, List.find?, he] at ih ⊢
    · simp [dir_get, update_status, List.find?, he] at ih ⊢
      exact ih

theorem dir_get_increment_attempt (st : TaskStateDir) (id : String) :
    dir_get (increment_attempt st id) id
      = (dir_get st id).map (fun en => { en with attempt := en.attempt + 1 }) := by
  induction st with
  | nil => rfl
  | cons e rest ih =>
    by_cases he : e.1 == id
    · simp [dir_get, increment_attempt, List.find?, he] at ih ⊢
    · simp [dir_get, increment_attempt, List.find?, he] at ih ⊢
      exact ih

theorem dir_get_remove_task (st : TaskStateDir) (id : String) :
    dir_get (remove_task st id) id = Option.none := by
  induction st with
  | nil => rfl
  | cons e rest ih =>
    simp only [remove_task, List.filter_cons] at ih ⊢
    by_cases he : (e.1 == id) = true
    · simp only [he, Bool.not_true, Bool.false_eq_true, if_false]
      exact ih
    · have hne : (e.1 == id) = false := by
        cases hb : (e.1 == id)
        · rfl
        · exact absurd hb he
      simp only [hne, Bool.not_false, if_true]
      simp only [dir_get, List.find?_cons, hne]
      exact ih

/-- The `TaskAdded` event used by the C8 counterexample. -/
def evAdded : Event :=
  { kind := EventKind.taskAdded, task := some "a", reason := Option.none }

/-- C8 counterexample — processing `TaskAdded` for task "a" on an empty
directory leaves the directory empty: the subscriber does not insert a
`Pending` entry (insertion happens in the supervisor at submit time, before
events are observed). -/
theorem state_tracker_taskadded_counterexample :
    on_event [] evAdded = []
    ∧ dir_get (on_event [] evAdded) "a" = Option.none
    ∧ ¬ ∃ en, dir_get (on_event [] evAdded) "a" = some en
          ∧ en.status = TaskStatus.pending := by
  refine ⟨rfl, rfl, ?_⟩
  rintro ⟨en, hen, -⟩
  cases hen

/-- C8 (amended) — State-tracker transition table as implemented: for an
event carrying a task id whose entry is in the directory, `TaskAdded` leaves
the directory unchanged (the entry was inserted at submit); `TaskStarting`
sets `Running` and increments `attempt`; `TaskStopped` sets `Succeeded`;
`TaskFailed` sets `Failed` with the event's reason or "unknown";
`TimeoutHit` sets `Timeout` with reason "timeout"; `ActorExhausted` sets
`Exhausted` with the event's reason or "exhausted"; `TaskRemoved` drops the
entry. -/
theorem state_tracker_transition_table (st : TaskStateDir) (ev : Event)
    (id : String) (en : TaskEntry) (hid : ev.task = some id)
    (hen : dir_get st id = some en) :
    (ev.kind = EventKind.taskAdded → on_event st ev = st)
    ∧ (ev.kind = EventKind.taskStarting →
        dir_get (on_event st ev) id
          = some { status := TaskStatus.running, attempt := en.attempt + 1,
                   error := Option.none })
    ∧ (ev.kind = EventKind.taskStopped →
        dir_get (on_event st ev) id
          = some { en with
                    status := TaskStatus.succeeded,
                    error := Option.none })
    ∧ (ev.kind = EventKind.taskFailed →
        dir_get (on_event st ev) id
          = some { en with
                    status := TaskStatus.failed,
                    error := some (ev.reason.getD "unknown") })
    ∧ (ev.kind = EventKind.timeoutHit →
        dir_get (on_event st ev) id
          = some { en with
                    status := TaskStatus.timeout,
                    error := some "timeout" })
    ∧ (ev.kind = EventKind.actorExhausted →
        dir_get (on_event st ev) id
          = some { en with
                    status := TaskStatus.exhausted,
                    error := some (ev.reason.getD "exhausted") })
    ∧ (ev.kind = EventKind.taskRemoved →
        dir_get (on_event st ev) id = Option.none) := by
  refine ⟨?_, ?_, ?_, ?_, ?_, ?_, ?_⟩ <;> intro hk <;>
    simp only [on_event, hid, hk] <;>
    simp [dir_get_update_status, dir_get_increment_attempt,
      dir_get_remove_task, hen]

/-- Directory fixture for the transition-table witness. -/
def stW : TaskStateDir :=
  [("a", { status := TaskStatus.pending, attempt := 0, error := Option.none })]

/-- The `TimeoutHit` event used by the transition-table witness. -/
def evTimeout : Event :=
  { kind := EventKind.timeoutHit, task := some "a", reason := Option.none }

theorem state_tracker_transition_table_witness :
    dir_get (on_event stW evTimeout) "a"
      = some { status := TaskStatus.timeout, attempt := 0,
               error := some "timeout" } := by
  have h := (state_tracker_transition_table stW evTimeout "a"
    { status := TaskStatus.pending, attempt := 0, error := Option.none }
    rfl rfl).2.2.2.2.1 rfl
  simpa using h

end Tno
